import Mathlib

/-!
Shallow embedding of the NumClash game rules engine
(`src/unnamed/part_001`, a React Native screen whose top-level
functions form the engine: `generateTargetNumber`, `rollDice`,
`rollTwoDice`, `initializeGame`, `applyOperation`, `canDivide`,
`rollDiceForGame`, `applyDiceOperation`, `applyFinalMove`,
`getCurrentPlayer`, and the UI callers `selectDiceOperation` /
`selectFinalOperation` that wrap engine calls in try/catch).

Modelling conventions:
* JS `number` values flowing through the engine are integers here
  (`Int`): every value the engine produces from integer inputs is an
  integer (division is guarded to be exact).
* Randomness (`Math.random()`) is made explicit: each call site of
  `Math.floor(Math.random() * n)` becomes a `Fin n` parameter holding
  the drawn value.
* A thrown `Error` becomes `Except.error` with a `GameError`
  constructor per distinct throw site; an out-of-bounds
  `players[currentPlayerIndex]` (JS `undefined`, whose field access
  throws `TypeError`) is `GameError.typeError`.
* JS `%` is the truncating remainder while Lean's `Int` `%` is the
  Euclidean remainder; the code only ever tests `x % y === 0`, and the
  two conventions agree on whether the remainder is zero (both are
  zero exactly when `y ∣ x`), so the embedding is faithful on every
  branch the code takes.  When the division is exact, JS `/`, which is
  exact rational division, agrees with Lean's `Int` division.
* The check `!gameState.diceCalculationResult` in `applyFinalMove` is
  a JS falsy test: it is true both for `null` and for the number `0`.
  The embedding keeps both cases (see the `some 0` branch).
-/

deriving instance DecidableEq for Except

namespace NumClash

inductive Operation
  | add
  | sub
  | mul
  | div
deriving DecidableEq

structure Player where
  id : Int
  name : String
  currentNumber : Int
  color : Option String
deriving DecidableEq

inductive GamePhase
  | roll
  | diceOperation
  | finalOperation
deriving DecidableEq

structure GameState where
  players : List Player
  targetNumber : Int
  currentPlayerIndex : Nat
  diceResults : Option (Int × Int)
  diceCalculationResult : Option Int
  winner : Option Player
  gameStarted : Bool
  gamePhase : GamePhase
deriving DecidableEq

/-- One constructor per distinct throw site of the source. -/
inductive GameError
  | divisionByZero
  | nonExactDivision
  | noDiceRolled
  | noDiceOperation
  | typeError
deriving DecidableEq

/-- The spec's `IllegalOperation` category: errors raised by `applyOperation`. -/
def GameError.isIllegalOperation : GameError → Bool
  | .divisionByZero => true
  | .nonExactDivision => true
  | _ => false

/-- The spec's `PreconditionError` category: a transition invoked in the wrong phase. -/
def GameError.isPreconditionError : GameError → Bool
  | .noDiceRolled => true
  | .noDiceOperation => true
  | _ => false

def INITIAL_PLAYER_NUMBER : Int := 5

def MIN_TARGET : Int := 50

def MAX_TARGET : Int := 500

def PLAYER_COLORS : List String := ["#FF6B6B", "#4ECDC4", "#45B7D1", "#96CEB4"]

/-- `Math.floor(Math.random() * (MAX_TARGET - MIN_TARGET + 1) + MIN_TARGET)`:
`u : Fin 451` is the drawn `Math.floor(Math.random() * 451)`
(`MAX_TARGET - MIN_TARGET + 1 = 451`), and adding the integer
`MIN_TARGET` commutes with `Math.floor`. -/
def generateTargetNumber (u : Fin 451) : Int := (u : Int) + MIN_TARGET

/-- `Math.floor(Math.random() * 6) + 1`: `u : Fin 6` is the drawn
`Math.floor(Math.random() * 6)`. -/
def rollDice (u : Fin 6) : Int := (u : Int) + 1

def rollTwoDice (u1 u2 : Fin 6) : Int × Int := (rollDice u1, rollDice u2)

/-- `customNames?.[i]?.trim() || "Oyuncu " + (i+1)`: the trimmed custom
name when present and non-empty (the empty string is falsy), the
generated placeholder otherwise. -/
def playerNameAt (customNames : Option (List String)) (i : Nat) : String :=
  match customNames.bind fun names => names.get? i with
  | some s => if s.trim = "" then "Oyuncu " ++ toString (i + 1) else s.trim
  | none => "Oyuncu " ++ toString (i + 1)

/-- `initializeGame(playerCount, customNames?)`.  `targetSeed` is the
random draw inside `generateTargetNumber`; `startSeed` is the drawn
`Math.floor(Math.random() * playerCount)` (which is `0` when
`playerCount = 0`, hence the `max playerCount 1` bound).  The source
performs no validation of `playerCount` whatsoever — there is no
`ConfigurationError` in the engine — so this function is total and
always returns a `GameState`. -/
def initializeGame (playerCount : Nat) (customNames : Option (List String))
    (targetSeed : Fin 451) (startSeed : Fin (max playerCount 1)) : GameState :=
  { players := (List.range playerCount).map fun (i : Nat) =>
      { id := (i : Int) + 1
        name := playerNameAt customNames i
        currentNumber := INITIAL_PLAYER_NUMBER
        color := PLAYER_COLORS.get? i }
    targetNumber := generateTargetNumber targetSeed
    currentPlayerIndex := (startSeed : Nat)
    diceResults := none
    diceCalculationResult := none
    winner := none
    gameStarted := true
    gamePhase := .roll }

/-- `applyOperation(number1, number2, operation)`.  Subtraction is
`Math.abs(number1 - number2)`; division throws on a zero divisor and
on a non-exact quotient, and otherwise returns the exact quotient. -/
def applyOperation (number1 number2 : Int) (operation : Operation) : Except GameError Int :=
  match operation with
  | .add => .ok (number1 + number2)
  | .sub => .ok |number1 - number2|
  | .mul => .ok (number1 * number2)
  | .div =>
    if number2 = 0 then .error .divisionByZero
    else if number1 % number2 ≠ 0 then .error .nonExactDivision
    else .ok (number1 / number2)

/-- `canDivide(number1, number2)`. -/
def canDivide (number1 number2 : Int) : Bool :=
  if number2 = 0 then false else number1 % number2 == 0

/-- `rollDiceForGame(gameState)`: the two die draws made explicit. -/
def rollDiceForGame (gameState : GameState) (u1 u2 : Fin 6) : GameState :=
  { gameState with
    diceResults := some (rollTwoDice u1 u2)
    gamePhase := .diceOperation }

/-- `applyDiceOperation(gameState, operation)`.  The guard
`!gameState.diceResults` is falsy only for `null` (an array is always
truthy), so it is exactly the `none` test. -/
def applyDiceOperation (gameState : GameState) (operation : Operation) :
    Except GameError GameState :=
  match gameState.diceResults with
  | none => .error .noDiceRolled
  | some (dice1, dice2) =>
    match applyOperation dice1 dice2 operation with
    | .error e => .error e
    | .ok diceCalculationResult =>
      .ok { gameState with
            diceCalculationResult := some diceCalculationResult
            gamePhase := .finalOperation }

/-- `applyFinalMove(gameState, operation)`.  The guard
`!gameState.diceCalculationResult` is a JS falsy test on a
`number | null`, so it fires both on `null` and on a stored result of
`0`.  `players[currentPlayerIndex]` out of bounds makes the subsequent
field access throw a `TypeError`. -/
def applyFinalMove (gameState : GameState) (operation : Operation) :
    Except GameError GameState :=
  match gameState.diceCalculationResult with
  | none => .error .noDiceOperation
  | some diceCalc =>
    if diceCalc = 0 then .error .noDiceOperation
    else
      match gameState.players.get? gameState.currentPlayerIndex with
      | none => .error .typeError
      | some currentPlayer =>
        match applyOperation currentPlayer.currentNumber diceCalc operation with
        | .error e => .error e
        | .ok newNumber =>
          let updatedPlayers := gameState.players.map fun player =>
            if player.id = currentPlayer.id then
              { player with currentNumber := newNumber }
            else player
          let winner : Option Player :=
            if newNumber = gameState.targetNumber then some currentPlayer else none
          let nextPlayerIndex :=
            if winner.isSome then gameState.currentPlayerIndex
            else (gameState.currentPlayerIndex + 1) % gameState.players.length
          .ok { gameState with
                players := updatedPlayers
                currentPlayerIndex := nextPlayerIndex
                diceResults := none
                diceCalculationResult := none
                winner := winner
                gamePhase := .roll }

/-- `getCurrentPlayer(gameState)`: JS indexing out of bounds yields
`undefined`, hence `Option`. -/
def getCurrentPlayer (gameState : GameState) : Option Player :=
  gameState.players.get? gameState.currentPlayerIndex

/-- `selectDiceOperation` (the UI caller): guards, then
`try { applyDiceOperation } catch { keep the previous state }`.  Every
early `return` leaves the React state untouched, so it is modelled as
returning the input state. -/
def selectDiceOperation (gameState : GameState) (operation : Operation) : GameState :=
  match gameState.diceResults with
  | none => gameState
  | some (dice1, dice2) =>
    if gameState.gamePhase ≠ .diceOperation then gameState
    else if operation = .div ∧ dice2 = 0 then gameState
    else if operation = .div ∧ dice1 % dice2 ≠ 0 then gameState
    else
      match applyDiceOperation gameState operation with
      | .ok newGameState => newGameState
      | .error _ => gameState

/-- `selectFinalOperation` (the UI caller): guards, then
`try { applyFinalMove } catch { keep the previous state }`.  For
`operation = '/'` the guard reads `currentPlayer.currentNumber`
outside the try/catch, so an out-of-bounds `currentPlayerIndex`
crashes uncaught there: that path is `none`. -/
def selectFinalOperation (gameState : GameState) (operation : Operation) :
    Option GameState :=
  match gameState.diceCalculationResult with
  | none => some gameState
  | some diceCalc =>
    if gameState.gamePhase ≠ .finalOperation then some gameState
    else if operation = .div then
      match getCurrentPlayer gameState with
      | none => none
      | some currentPlayer =>
        if ¬ canDivide currentPlayer.currentNumber diceCalc then some gameState
        else
          match applyFinalMove gameState operation with
          | .ok newGameState => some newGameState
          | .error _ => some gameState
    else
      match applyFinalMove gameState operation with
      | .ok newGameState => some newGameState
      | .error _ => some gameState

/-! Concrete states used by witnesses and counterexamples. -/

/-- A player mid-game: running number 45. -/
def wP1 : Player := { id := 1, name := "Oyuncu 1", currentNumber := 45, color := some "#FF6B6B" }

/-- A second player at the starting number. -/
def wP2 : Player := { id := 2, name := "Oyuncu 2", currentNumber := 5, color := some "#4ECDC4" }

/-- A final-operation state: player 1 to act, stored dice-operation result 5, target 50. -/
def wState : GameState :=
  { players := [wP1, wP2]
    targetNumber := 50
    currentPlayerIndex := 0
    diceResults := some (2, 3)
    diceCalculationResult := some 5
    winner := none
    gameStarted := true
    gamePhase := .finalOperation }

/-- A dice-operation state: dice (3, 3) just rolled. -/
def wStateDice : GameState :=
  { wState with
    diceResults := some (3, 3)
    diceCalculationResult := none
    gamePhase := .diceOperation }

/-- The state after choosing `-` on dice (3, 3): the stored result is 0. -/
def wStateZero : GameState :=
  { wStateDice with
    diceCalculationResult := some 0
    gamePhase := .finalOperation }

/-- A roll-phase state: no dice rolled yet. -/
def wStateRoll : GameState :=
  { wState with
    diceResults := none
    diceCalculationResult := none
    gamePhase := .roll }

/-! Helper lemmas. -/

/-- `applyOperation` only ever throws its two division errors. -/
theorem applyOperation_error_cases {a b : Int} {op : Operation} {e : GameError}
    (h : applyOperation a b op = .error e) :
    e = .divisionByZero ∨ e = .nonExactDivision := by
  cases op <;> simp only [applyOperation] at h
  · exact Except.noConfusion h
  · exact Except.noConfusion h
  · exact Except.noConfusion h
  · split at h
    · injection h with h2
      exact Or.inl h2.symm
    · split at h
      · injection h with h2
        exact Or.inr h2.symm
      · exact Except.noConfusion h

/-- The shape of a successful `applyFinalMove`. -/
theorem applyFinalMove_ok_shape {s : GameState} {op : Operation} {d : Int} {p : Player}
    {n : Int} (hd : s.diceCalculationResult = some d) (hdnz : d ≠ 0)
    (hp : s.players.get? s.currentPlayerIndex = some p)
    (happ : applyOperation p.currentNumber d op = .ok n) :
    applyFinalMove s op =
      .ok { s with
            players := s.players.map fun q =>
              if q.id = p.id then { q with currentNumber := n } else q
            currentPlayerIndex :=
              if n = s.targetNumber then s.currentPlayerIndex
              else (s.currentPlayerIndex + 1) % s.players.length
            diceResults := none
            diceCalculationResult := none
            winner := if n = s.targetNumber then some p else none
            gamePhase := .roll } := by
  simp only [applyFinalMove, hd, hdnz, hp, happ, if_false]
  by_cases htar : n = s.targetNumber <;> simp [htar]

/-- The acting player's entry in the by-id update. -/
theorem get?_map_update_self {ps : List Player} {i : Nat} {p : Player}
    (hp : ps.get? i = some p) (n : Int) :
    (ps.map fun q => if q.id = p.id then { q with currentNumber := n } else q).get? i
      = some { p with currentNumber := n } := by
  rw [List.get?_map, hp]
  simp

/-- With pairwise-distinct ids, the by-id update leaves every other index alone. -/
theorem get?_map_update_ne {ps : List Player}
    (hids : ps.Pairwise fun a b => a.id ≠ b.id) {i : Nat} {p : Player}
    (hp : ps.get? i = some p) (n : Int) {j : Nat} (hj : j ≠ i) :
    (ps.map fun q => if q.id = p.id then { q with currentNumber := n } else q).get? j
      = ps.get? j := by
  rw [List.get?_map]
  rcases hq : ps.get? j with _ | q
  · rfl
  · obtain ⟨hjlt, hgetj⟩ := List.get?_eq_some.mp hq
    obtain ⟨hilt, hgeti⟩ := List.get?_eq_some.mp hp
    have hpw := List.pairwise_iff_get.mp hids
    have hne : q.id ≠ p.id := by
      rcases Nat.lt_or_ge j i with hlt | hge
      · have := hpw ⟨j, hjlt⟩ ⟨i, hilt⟩ hlt
        rw [hgetj, hgeti] at this
        exact this
      · have hij : i < j := Nat.lt_of_le_of_ne hge (Ne.symm hj)
        have := hpw ⟨i, hilt⟩ ⟨j, hjlt⟩ hij
        rw [hgetj, hgeti] at this
        exact this.symm
    simp [hne]

/-- A successful `applyDiceOperation` keeps `targetNumber`. -/
theorem targetNumber_applyDiceOperation {s s' : GameState} {op : Operation}
    (h : applyDiceOperation s op = .ok s') : s'.targetNumber = s.targetNumber := by
  unfold applyDiceOperation at h
  split at h
  · exact Except.noConfusion h
  · split at h
    · exact Except.noConfusion h
    · injection h with h2
      subst h2
      rfl

/-- A successful `applyFinalMove` keeps `targetNumber`. -/
theorem targetNumber_applyFinalMove {s s' : GameState} {op : Operation}
    (h : applyFinalMove s op = .ok s') : s'.targetNumber = s.targetNumber := by
  unfold applyFinalMove at h
  split at h
  · exact Except.noConfusion h
  · split at h
    · exact Except.noConfusion h
    · split at h
      · exact Except.noConfusion h
      · split at h
        · exact Except.noConfusion h
        · injection h with h2
          subst h2
          rfl

/-! The claims. -/

/-- C3 counterexample: at the concrete out-of-range `playerCount = 5`,
`initializeGame` does not fail — it returns a fully formed `GameState`
with 5 players, phase `roll`, started.  (No `ConfigurationError`
exists anywhere in the engine.) -/
theorem C3_out_of_range_returns_state :
    (initializeGame 5 none ⟨0, by decide⟩ ⟨0, by decide⟩).players.length = 5 ∧
    (initializeGame 5 none ⟨0, by decide⟩ ⟨0, by decide⟩).gamePhase = .roll ∧
    (initializeGame 5 none ⟨0, by decide⟩ ⟨0, by decide⟩).gameStarted = true := by
  decide

/-- C3 (amended): `initializeGame` performs no `playerCount`
validation and never fails: for every `playerCount`, including values
outside [2,4], it returns a `GameState` with exactly `playerCount`
players, phase `roll`, no winner. -/
theorem C3_initializeGame_total (playerCount : Nat) (customNames : Option (List String))
    (t : Fin 451) (s0 : Fin (max playerCount 1)) :
    (initializeGame playerCount customNames t s0).players.length = playerCount ∧
    (initializeGame playerCount customNames t s0).gamePhase = .roll ∧
    (initializeGame playerCount customNames t s0).winner = none ∧
    (initializeGame playerCount customNames t s0).gameStarted = true := by
  refine ⟨?_, rfl, rfl, rfl⟩
  simp [initializeGame]

/-- C4: for all integers, `+` is addition, `*` is multiplication, and
`-` is the absolute difference, which is never negative. -/
theorem C4_add_mul_sub_semantics (a b : Int) :
    applyOperation a b .add = .ok (a + b) ∧
    applyOperation a b .mul = .ok (a * b) ∧
    applyOperation a b .sub = .ok |a - b| ∧
    0 ≤ |a - b| :=
  ⟨rfl, rfl, rfl, abs_nonneg _⟩

/-- C5: division fails with `IllegalOperation` exactly on a zero
divisor or a non-exact quotient, otherwise returns the exact quotient;
`canDivide` is true exactly when division would succeed. -/
theorem C5_division_guards (a b : Int) :
    (b = 0 → applyOperation a b .div = .error .divisionByZero) ∧
    (b ≠ 0 → a % b ≠ 0 → applyOperation a b .div = .error .nonExactDivision) ∧
    (b ≠ 0 → a % b = 0 →
      applyOperation a b .div = .ok (a / b) ∧ a / b * b = a) ∧
    (canDivide a b = true ↔ b ≠ 0 ∧ a % b = 0) ∧
    (canDivide a b = true ↔ ∃ n, applyOperation a b .div = .ok n) ∧
    GameError.divisionByZero.isIllegalOperation = true ∧
    GameError.nonExactDivision.isIllegalOperation = true := by
  refine ⟨?_, ?_, ?_, ?_, ?_, rfl, rfl⟩
  · intro hb
    simp [applyOperation, hb]
  · intro hb hm
    simp [applyOperation, hb, hm]
  · intro hb hm
    exact ⟨by simp [applyOperation, hb, hm],
      Int.ediv_mul_cancel (Int.dvd_of_emod_eq_zero hm)⟩
  · by_cases hb : b = 0 <;> simp [canDivide, hb]
  · by_cases hb : b = 0 <;> by_cases hm : a % b = 0 <;>
      simp [canDivide, applyOperation, hb, hm]

/-- C5 witness: `(6, 3)` divides exactly and `(5, 0)` is rejected. -/
theorem C5_division_guards_witness :
    applyOperation 6 3 .div = .ok (6 / 3 : Int) ∧ (6 / 3 : Int) * 3 = 6 ∧
    applyOperation 5 0 .div = .error .divisionByZero :=
  ⟨((C5_division_guards 6 3).2.2.1 (by decide) (by decide)).1,
   ((C5_division_guards 6 3).2.2.1 (by decide) (by decide)).2,
   (C5_division_guards 5 0).1 rfl⟩

/-- C7: for every state and every outcome of the two die draws,
`rollDiceForGame` stores an ordered pair of integers in [1,6], moves
to `dice-operation`, and leaves players, index, target and winner
untouched. -/
theorem C7_rollDiceForGame_spec (s : GameState) (u1 u2 : Fin 6) :
    ∃ d1 d2 : Int,
      (rollDiceForGame s u1 u2).diceResults = some (d1, d2) ∧
      1 ≤ d1 ∧ d1 ≤ 6 ∧ 1 ≤ d2 ∧ d2 ≤ 6 ∧
      (rollDiceForGame s u1 u2).gamePhase = .diceOperation ∧
      (rollDiceForGame s u1 u2).players = s.players ∧
      (rollDiceForGame s u1 u2).currentPlayerIndex = s.currentPlayerIndex ∧
      (rollDiceForGame s u1 u2).targetNumber = s.targetNumber ∧
      (rollDiceForGame s u1 u2).winner = s.winner := by
  refine ⟨rollDice u1, rollDice u2, rfl, ?_, ?_, ?_, ?_, rfl, rfl, rfl, rfl, rfl⟩
  all_goals
    unfold rollDice
    have h1 := u1.isLt
    have h2 := u2.isLt
    omega

/-- C8: the bootstrap target lies in [50, 500] and every transition of
the state machine keeps `targetNumber` unchanged. -/
theorem C8_targetNumber_invariant :
    (∀ (playerCount : Nat) (customNames : Option (List String)) (t : Fin 451)
        (s0 : Fin (max playerCount 1)),
      50 ≤ (initializeGame playerCount customNames t s0).targetNumber ∧
      (initializeGame playerCount customNames t s0).targetNumber ≤ 500) ∧
    (∀ (s : GameState) (u1 u2 : Fin 6),
      (rollDiceForGame s u1 u2).targetNumber = s.targetNumber) ∧
    (∀ (s s' : GameState) (op : Operation),
      applyDiceOperation s op = .ok s' → s'.targetNumber = s.targetNumber) ∧
    (∀ (s s' : GameState) (op : Operation),
      applyFinalMove s op = .ok s' → s'.targetNumber = s.targetNumber) := by
  refine ⟨?_, fun s u1 u2 => rfl, fun s s' op h => targetNumber_applyDiceOperation h,
    fun s s' op h => targetNumber_applyFinalMove h⟩
  intro playerCount customNames t s0
  have ht := t.isLt
  unfold initializeGame generateTargetNumber MIN_TARGET
  constructor <;> simp <;> omega

/-- C8 witness: a concrete dice-operation transition keeps the target. -/
theorem C8_targetNumber_invariant_witness :
    ({ wStateDice with
       diceCalculationResult := some 6
       gamePhase := GamePhase.finalOperation } : GameState).targetNumber
      = wStateDice.targetNumber :=
  C8_targetNumber_invariant.2.2.1 wStateDice
    { wStateDice with
      diceCalculationResult := some 6
      gamePhase := GamePhase.finalOperation } .add (by decide)

/-- C6: `applyDiceOperation` fails with "no dice rolled yet" exactly
when `diceResults` is absent; with dice present it propagates any
`applyOperation` failure unchanged, and on success stores the result
and moves to `final-operation`, changing nothing else. -/
theorem C6_applyDiceOperation_spec (s : GameState) (op : Operation) :
    (applyDiceOperation s op = .error .noDiceRolled ↔ s.diceResults = none) ∧
    (∀ d1 d2, s.diceResults = some (d1, d2) →
      (∀ e, applyOperation d1 d2 op = .error e → applyDiceOperation s op = .error e) ∧
      (∀ n, applyOperation d1 d2 op = .ok n →
        applyDiceOperation s op =
          .ok { s with
                diceCalculationResult := some n
                gamePhase := .finalOperation })) := by
  constructor
  · constructor
    · intro h
      rcases hdr : s.diceResults with _ | ⟨d1, d2⟩
      · rfl
      · exfalso
        simp only [applyDiceOperation, hdr] at h
        cases happ : applyOperation d1 d2 op with
        | error e =>
          simp only [happ] at h
          injection h with h2
          subst h2
          rcases applyOperation_error_cases happ with h3 | h3 <;> exact GameError.noConfusion h3
        | ok n =>
          simp only [happ] at h
          exact Except.noConfusion h
    · intro h
      simp [applyDiceOperation, h]
  · intro d1 d2 hdr
    constructor
    · intro e he
      simp [applyDiceOperation, hdr, he]
    · intro n hn
      simp [applyDiceOperation, hdr, hn]

/-- C6 witness: dice (3, 3) with `*` stores 9 and moves to the
final-operation phase. -/
theorem C6_applyDiceOperation_spec_witness :
    applyDiceOperation wStateDice .mul =
      .ok { wStateDice with
            diceCalculationResult := some 9
            gamePhase := GamePhase.finalOperation } :=
  ((C6_applyDiceOperation_spec wStateDice .mul).2 3 3 rfl).2 9 (by decide)

/-- C2: at the failing input — a final-operation state whose stored
dice-operation result is 0, reached from dice (3, 3) by the `-`
operation — `applyFinalMove` throws the PreconditionError "no dice
operation performed yet", although a dice operation has resolved and
stored a result: the JS guard `!diceCalculationResult` also fires on
the number 0. -/
theorem C2_falsy_zero_precondition :
    applyOperation 3 3 .sub = .ok 0 ∧
    applyDiceOperation wStateDice .sub = .ok wStateZero ∧
    wStateZero.diceCalculationResult = some 0 ∧
    applyFinalMove wStateZero .add = .error .noDiceOperation ∧
    GameError.noDiceOperation.isPreconditionError = true := by
  decide

/-- C1 counterexample: the claim's hypothesis admits a present stored
result of 0; there `applyOperation` succeeds (`45 + 0`), yet
`applyFinalMove` returns an error instead of the updated state the
claim promises. -/
theorem C1_zero_blocks_final_move :
    wStateZero.diceCalculationResult = some 0 ∧
    applyOperation wP1.currentNumber 0 .add = .ok wP1.currentNumber ∧
    applyFinalMove wStateZero .add = .error .noDiceOperation := by
  decide

/-- C1 (amended: the stored `diceCalculationResult` must additionally
be nonzero, since the JS falsy guard rejects 0; player ids pairwise
distinct and the current index valid, as the data model guarantees):
a successful final move updates exactly the acting player's number,
leaves every other player's record unchanged, sets the winner and
keeps the index on an exact hit, otherwise advances the index mod
playerCount, and always clears the dice fields and returns to the
roll phase. -/
theorem C1_applyFinalMove_success (s : GameState) (op : Operation) (d : Int) (p : Player)
    (n : Int) (hd : s.diceCalculationResult = some d) (hdnz : d ≠ 0)
    (hids : s.players.Pairwise fun a b => a.id ≠ b.id)
    (hp : s.players.get? s.currentPlayerIndex = some p)
    (happ : applyOperation p.currentNumber d op = .ok n) :
    ∃ s', applyFinalMove s op = .ok s' ∧
      s'.players.length = s.players.length ∧
      s'.players.get? s.currentPlayerIndex = some { p with currentNumber := n } ∧
      (∀ j, j ≠ s.currentPlayerIndex → s'.players.get? j = s.players.get? j) ∧
      (n = s.targetNumber →
        s'.winner = some p ∧ s'.currentPlayerIndex = s.currentPlayerIndex) ∧
      (n ≠ s.targetNumber →
        s'.winner = none ∧
        s'.currentPlayerIndex = (s.currentPlayerIndex + 1) % s.players.length) ∧
      s'.diceResults = none ∧ s'.diceCalculationResult = none ∧
      s'.gamePhase = .roll := by
  refine ⟨_, applyFinalMove_ok_shape hd hdnz hp happ, ?_, ?_, ?_, ?_, ?_, rfl, rfl, rfl⟩
  · simp
  · exact get?_map_update_self hp n
  · intro j hj
    exact get?_map_update_ne hids hp n hj
  · intro h
    simp [h]
  · intro h
    simp [h]

/-- C1 witness: from `wState` (player 1 at 45, stored result 5,
target 50), the final operation `-` yields 40, no win, and the turn
passes to player 2. -/
theorem C1_applyFinalMove_success_witness :
    ∃ s', applyFinalMove wState .sub = .ok s' ∧
      s'.players.get? 0 = some { wP1 with currentNumber := 40 } := by
  obtain ⟨s', hok, -, hself, -⟩ :=
    C1_applyFinalMove_success wState .sub 5 wP1 40 rfl (by decide) (by decide) rfl (by decide)
  exact ⟨s', hok, hself⟩

/-- C9: when `applyDiceOperation` or `applyFinalMove` fails, the UI
callers that catch the exception keep the previous state unchanged —
in particular `currentPlayerIndex` does not advance on a failing final
move. -/
theorem C9_all_or_nothing (s : GameState) (op : Operation) :
    (∀ e, applyDiceOperation s op = .error e → selectDiceOperation s op = s) ∧
    (s.currentPlayerIndex < s.players.length →
      ∀ e, applyFinalMove s op = .error e →
        selectFinalOperation s op = some s) := by
  constructor
  · intro e he
    rcases hdr : s.diceResults with _ | ⟨d1, d2⟩
    · simp [selectDiceOperation, hdr]
    · simp only [selectDiceOperation, hdr]
      split
      · rfl
      · split
        · rfl
        · split
          · rfl
          · simp [he]
  · intro hidx e he
    have hp : s.players.get? s.currentPlayerIndex =
        some (s.players.get ⟨s.currentPlayerIndex, hidx⟩) := List.get?_eq_get hidx
    rcases hdcr : s.diceCalculationResult with _ | d
    · simp [selectFinalOperation, hdcr]
    · simp only [selectFinalOperation, hdcr]
      split
      · rfl
      · split
        · simp only [getCurrentPlayer, hp]
          split
          · rfl
          · simp [he]
        · simp [he]

/-- C9 witness: a dice-phase call with no dice rolled and a
final-phase call blocked by the zero result both leave the state
exactly as it was. -/
theorem C9_all_or_nothing_witness :
    selectDiceOperation wStateRoll .add = wStateRoll ∧
    selectFinalOperation wStateZero .div = some wStateZero :=
  ⟨(C9_all_or_nothing wStateRoll .add).1 .noDiceRolled (by decide),
   (C9_all_or_nothing wStateZero .div).2 (by decide) .noDiceOperation (by decide)⟩

/-- C10: when a final move hits the target, the stored `winner` is the
acting player's pre-move record — its `currentNumber` is the number
before the winning move — while that player's entry in the returned
`players` array carries the updated number equal to `targetNumber`. -/
theorem C10_winner_premove_record (s : GameState) (op : Operation) (d : Int) (p : Player)
    (hd : s.diceCalculationResult = some d) (hdnz : d ≠ 0)
    (hp : s.players.get? s.currentPlayerIndex = some p)
    (happ : applyOperation p.currentNumber d op = .ok s.targetNumber) :
    ∃ s', applyFinalMove s op = .ok s' ∧
      s'.winner = some p ∧
      (∀ w, s'.winner = some w → w.currentNumber = p.currentNumber) ∧
      (p.currentNumber ≠ s.targetNumber →
        ∀ w, s'.winner = some w → w.currentNumber ≠ s.targetNumber) ∧
      s'.players.get? s.currentPlayerIndex =
        some { p with currentNumber := s.targetNumber } := by
  refine ⟨_, applyFinalMove_ok_shape hd hdnz hp happ, ?_, ?_, ?_, ?_⟩
  · simp
  · intro w hw
    simp at hw
    rw [← hw]
  · intro hpre w hw
    simp at hw
    rw [← hw]
    exact hpre
  · exact get?_map_update_self hp s.targetNumber

/-- C10 witness: the spec's scenario — player at 45, stored result 5,
final operation `+` hits the target 50; the winner record still reads
45, the players array reads 50. -/
theorem C10_winner_premove_record_witness :
    ∃ s', applyFinalMove wState .add = .ok s' ∧
      s'.winner = some wP1 ∧
      s'.players.get? 0 = some { wP1 with currentNumber := 50 } := by
  obtain ⟨s', hok, hwin, -, -, hentry⟩ :=
    C10_winner_premove_record wState .add 5 wP1 rfl (by decide) rfl (by decide)
  exact ⟨s', hok, hwin, hentry⟩

end NumClash
